import Mathlib

/-!
Shallow embedding of the offline photo capture-and-sync subsystem of the
photobooth application: the local photo store (`db` over IndexedDB), the
upload / background-sync API (`api.shareCreate`, `api.syncPendingPhotos`)
and the expiry calculator (`getExpiryInfo`, `formatRemainingTime`).

Modelling conventions:
* The IndexedDB object store (keyPath `id`) is modelled as a `List OfflinePhoto`;
  `store.put` is insert-or-overwrite by `id`, and `store.get` followed by `put`
  is a `List.map` touching the records with the given id (ids are unique in
  the real store, enforced by the keyPath; where a proof needs that fact it
  takes `IdsDistinct` as a hypothesis).
* Network calls (`fetch` of the data URL, the storage upload, the metadata
  insert/upsert) are modelled by boolean oracles in a `Network` record;
  `false` means the call fails (rejects / returns an error object).
* Storage-layer failures of IndexedDB itself (request.onerror) are outside
  the model: every db operation is total on the state.
* JavaScript numbers of the expiry calculator are modelled as `Int`
  (all values appearing there are integral); `NaN`, which arises from an
  unparseable `createdAt` (`new Date(bad).getTime()`), is modelled as `none`
  in `Option Int` with the JS comparison / `Math.max` / `toString` semantics
  made explicit (`jsLeZero`, `jsMaxZero`, `jsFormatRemaining`).
-/

namespace Photobooth

/-- The record persisted in IndexedDB (interface `OfflinePhoto` in `db.ts`). -/
structure OfflinePhoto where
  id : String
  dataUrl : String
  width : Nat
  height : Nat
  layoutName : String
  timestamp : Nat
  synced : Bool
  supabaseId : Option String
  retries : Nat
  deriving Repr, DecidableEq

/-- The local store: the contents of the `photos` object store. -/
abbrev Store := List OfflinePhoto

/-- Embedding of `db.savePhoto`: `store.put(photo)` inserts a new record or
fully overwrites the record with the same id. -/
def savePhoto (photo : OfflinePhoto) (st : Store) : Store :=
  if st.any (fun p => p.id == photo.id) then
    st.map (fun p => if p.id = photo.id then photo else p)
  else
    st ++ [photo]

/-- Embedding of `db.getPendingPhotos`: all records with `synced == false`. -/
def getPendingPhotos (st : Store) : Store :=
  st.filter (fun p => !p.synced)

/-- Embedding of `db.getDataUrl`. -/
def getDataUrl (id : String) (st : Store) : Option String :=
  (st.find? (fun p => p.id == id)).map (fun p => p.dataUrl)

/-- Embedding of `db.markSynced`: get the record by id; if present set
`synced := true` and `supabaseId := supabaseId` and put it back; if absent
resolve without change. -/
def markSynced (id supabaseId : String) (st : Store) : Store :=
  st.map (fun p => if p.id = id then { p with synced := true, supabaseId := some supabaseId } else p)

/-- Embedding of `db.incrementRetry`: get the record by id; if present set
`retries := retries + 1` and put it back; if absent resolve without change.
(`item.retries || 0` only matters for records missing the field, which the
typed model excludes.) -/
def incrementRetry (id : String) (st : Store) : Store :=
  st.map (fun p => if p.id = id then { p with retries := p.retries + 1 } else p)

/-- Outcomes of the network calls an upload attempt makes, as oracles:
`fetchOk` is keyed by the data URL (the `fetch(dataUrl)`/blob conversion),
`uploadOk` by the storage file path, `insertOk` by the photo id (the
metadata insert/upsert). -/
structure Network where
  fetchOk : String → Bool
  uploadOk : String → Bool
  insertOk : String → Bool

/-- The deterministic remote object key used by both upload paths:
`` `${id}.png` ``. -/
def filePath (id : String) : String := id ++ ".png"

/-- Whether one full upload attempt for a photo succeeds: the data-URL fetch,
the storage upload at `filePath`, and the metadata write must all succeed;
the first failure throws into the surrounding catch. -/
def attemptOk (net : Network) (p : OfflinePhoto) : Bool :=
  net.fetchOk p.dataUrl && net.uploadOk (filePath p.id) && net.insertOk p.id

/-- JavaScript `x || d` on a possibly-undefined number: `undefined` and `0`
are falsy. -/
def jsOrNat (v : Option Nat) (d : Nat) : Nat :=
  match v with
  | none => d
  | some 0 => d
  | some w => w

/-- JavaScript `x || d` on a possibly-undefined string: `undefined` and `""`
are falsy. -/
def jsOrStr (v : Option String) (d : String) : String :=
  match v with
  | none => d
  | some s => if s = "" then d else s

/-- The record `api.shareCreate` builds and saves locally before any upload. -/
def newOfflinePhoto (id dataUrl : String) (width height : Option Nat)
    (layoutName : Option String) (nowMs : Nat) : OfflinePhoto :=
  { id := id
    dataUrl := dataUrl
    width := jsOrNat width 1240
    height := jsOrNat height 1748
    layoutName := jsOrStr layoutName ("default")
    timestamp := nowMs
    synced := false
    supabaseId := none
    retries := 0 }

/-- The message of the error `api.shareCreate` throws when the immediate
upload attempt fails. -/
def offlineErrorMsg : String :=
  "Offline: Photo saved to device. Connect to internet to share."

/-- Embedding of `api.shareCreate`. The generated `id` (from `nanoid(10)`)
and `Date.now()` are inputs. The photo is saved locally first; then the
upload is attempted: on success of all three network steps the record is
marked synced with `supabaseId = id` and `{ id }` is returned; on any
failure an `Error` carrying `offlineErrorMsg` is thrown (the cleanup
`remove` of the remote file touches only remote state). The resulting local
store is returned alongside the result in either case. -/
def shareCreate (net : Network) (id dataUrl : String) (width height : Option Nat)
    (layoutName : Option String) (nowMs : Nat) (st : Store) :
    Except String String × Store :=
  let photo := newOfflinePhoto id dataUrl width height layoutName nowMs
  let st1 := savePhoto photo st
  if attemptOk net photo then
    (Except.ok id, markSynced id id st1)
  else
    (Except.error offlineErrorMsg, st1)

/-- One iteration of the loop body of `api.syncPendingPhotos` for a photo
taken from the pending snapshot: skip if `photo.retries > 5`; otherwise
increment the retry count, attempt the upload, and mark synced (with the
local id as the remote id) only when every step succeeded; a failure is
caught and leaves the store as it was after `incrementRetry`. -/
def syncStep (net : Network) (st : Store) (photo : OfflinePhoto) : Store :=
  if photo.retries > 5 then st
  else
    let st1 := incrementRetry photo.id st
    if attemptOk net photo then markSynced photo.id photo.id st1 else st1

/-- Embedding of `api.syncPendingPhotos`: snapshot the pending records, then
process them sequentially with `syncStep`. (The early return on an empty
snapshot is the fold over `[]`.) -/
def syncPendingPhotos (net : Network) (st : Store) : Store :=
  (getPendingPhotos st).foldl (syncStep net) st

/-- N repeated sync runs against a fixed network behaviour. -/
def iterateSync (net : Network) (st : Store) : Nat → Store
  | 0 => st
  | n + 1 => syncPendingPhotos net (iterateSync net st n)

/-- Configuration constant `config.PHOTO_EXPIRY_HOURS`. -/
def PHOTO_EXPIRY_HOURS : Nat := 24

/-- The expiry window in milliseconds: `PHOTO_EXPIRY_HOURS * 60 * 60 * 1000`. -/
def expiryWindowMs : Int := PHOTO_EXPIRY_HOURS * 60 * 60 * 1000

/-- Embedding of `v.toString().padStart(2, '0')` for a natural number. -/
def padTwo (n : Nat) : String :=
  let s := toString n
  if s.length < 2 then "0" ++ s else s

/-- Embedding of `formatRemainingTime` for a real (non-NaN) millisecond
value: `ms <= 0` gives `"00:00:00"`, otherwise whole seconds are rendered
as zero-padded `HH:MM:SS` (hours unbounded). -/
def formatRemainingTime (ms : Int) : String :=
  if ms ≤ 0 then "00:00:00"
  else
    let totalSeconds := ms.toNat / 1000
    let hours := totalSeconds / 3600
    let minutes := (totalSeconds % 3600) / 60
    let seconds := totalSeconds % 60
    padTwo hours ++ ":" ++ padTwo minutes ++ ":" ++ padTwo seconds

/-- Result of `getExpiryInfo` on a parseable `createdAt` (all the JS numbers
involved are integral). -/
structure ExpiryInfo where
  isExpired : Bool
  remainingMs : Int
  remainingFormatted : String
  expiresAt : Int
  deriving Repr, DecidableEq

/-- Embedding of `getExpiryInfo` with the creation time already parsed to
epoch milliseconds and the current time (`new Date()` inside the source)
passed explicitly. -/
def getExpiryInfo (createdMs nowMs : Int) : ExpiryInfo :=
  let expiresAt := createdMs + expiryWindowMs
  let remainingMs := expiresAt - nowMs
  { isExpired := decide (remainingMs ≤ 0)
    remainingMs := max 0 remainingMs
    remainingFormatted := formatRemainingTime remainingMs
    expiresAt := expiresAt }

/-- JS addition with NaN propagation (`none` = NaN). -/
def jsAdd (a b : Option Int) : Option Int :=
  match a, b with
  | some x, some y => some (x + y)
  | _, _ => none

/-- JS subtraction with NaN propagation. -/
def jsSub (a b : Option Int) : Option Int :=
  match a, b with
  | some x, some y => some (x - y)
  | _, _ => none

/-- JS `x <= 0`: every comparison with NaN is `false`. -/
def jsLeZero (a : Option Int) : Bool :=
  match a with
  | some x => decide (x ≤ 0)
  | none => false

/-- JS `Math.max(0, x)`: `Math.max(0, NaN)` is `NaN`. -/
def jsMaxZero (a : Option Int) : Option Int :=
  match a with
  | some x => some (max 0 x)
  | none => none

/-- JS `formatRemainingTime(x)`: on `NaN` the `<= 0` guard is false, all the
arithmetic produces `NaN`, and `NaN.toString()` is `"NaN"` (3 characters, so
`padStart(2, '0')` leaves it alone), joined with `':'`. -/
def jsFormatRemaining (a : Option Int) : String :=
  match a with
  | some x => formatRemainingTime x
  | none => "NaN:NaN:NaN"

/-- Result of `getExpiryInfo` in full JS-number semantics (`none` = NaN). -/
structure ExpiryInfoJs where
  isExpired : Bool
  remainingMs : Option Int
  remainingFormatted : String
  expiresAt : Option Int
  deriving Repr, DecidableEq

/-- Embedding of `getExpiryInfo` over JS numbers: `createdMs` is
`new Date(createdAt).getTime()`, which is `none` (NaN) exactly when
`createdAt` is unparseable. -/
def getExpiryInfoJs (createdMs : Option Int) (nowMs : Int) : ExpiryInfoJs :=
  let expiresAt := jsAdd createdMs (some expiryWindowMs)
  let remainingMs := jsSub expiresAt (some nowMs)
  { isExpired := jsLeZero remainingMs
    remainingMs := jsMaxZero remainingMs
    remainingFormatted := jsFormatRemaining remainingMs
    expiresAt := expiresAt }

/-- View of a store retaining only each record's id and synced flag. -/
def syncedView (st : Store) : List (String × Bool) :=
  st.map (fun p => (p.id, p.synced))

/-- View of a store retaining only each record's retry counter. -/
def retriesView (st : Store) : List Nat :=
  st.map (fun p => p.retries)

/-- Distinctness of ids in the store, guaranteed by the IndexedDB keyPath. -/
def IdsDistinct (st : Store) : Prop :=
  List.Pairwise (fun a b => a.id ≠ b.id) st

/-- A record no step of a run touches stays in place and stays the only
record with its id. -/
def Frozen (p : OfflinePhoto) (st : Store) : Prop :=
  p ∈ st ∧ ∀ q ∈ st, q.id = p.id → q = p

/-- Invariant: every synced record stores its own local id as the remote id. -/
def goodState (st : Store) : Prop :=
  ∀ p ∈ st, p.synced = true → p.supabaseId = some p.id

/-- Fixture: an unsynced record with no retries yet. -/
def photoA : OfflinePhoto :=
  { id := "a", dataUrl := "data:image/png;base64,xyz", width := 1240, height := 1748,
    layoutName := "default", timestamp := 0, synced := false, supabaseId := none, retries := 0 }

/-- Fixture: an unsynced record already past the retry ceiling. -/
def photoStuck : OfflinePhoto :=
  { id := "b", dataUrl := "data:image/png;base64,stuck", width := 100, height := 100,
    layoutName := "strip", timestamp := 5, synced := false, supabaseId := none, retries := 7 }

/-- Fixture: first of three pending records. -/
def photoC1 : OfflinePhoto :=
  { id := "c1", dataUrl := "data:1", width := 10, height := 10, layoutName := "grid",
    timestamp := 1, synced := false, supabaseId := none, retries := 0 }

/-- Fixture: second of three pending records. -/
def photoC2 : OfflinePhoto :=
  { id := "c2", dataUrl := "data:2", width := 10, height := 10, layoutName := "grid",
    timestamp := 2, synced := false, supabaseId := none, retries := 3 }

/-- Fixture: third of three pending records. -/
def photoC3 : OfflinePhoto :=
  { id := "c3", dataUrl := "data:3", width := 10, height := 10, layoutName := "grid",
    timestamp := 3, synced := false, supabaseId := none, retries := 5 }

/-- Fixture network: object-storage uploads always fail. -/
def netOffline : Network :=
  { fetchOk := fun _ => true, uploadOk := fun _ => false, insertOk := fun _ => true }

/-- Fixture network: every call succeeds. -/
def netOnline : Network :=
  { fetchOk := fun _ => true, uploadOk := fun _ => true, insertOk := fun _ => true }

/-- Fixture network: every call succeeds. -/
def netAllOk : Network :=
  { fetchOk := fun _ => true, uploadOk := fun _ => true, insertOk := fun _ => true }

/-- Fixture network: uploads succeed but the metadata write always fails. -/
def netNoInsert : Network :=
  { fetchOk := fun _ => true, uploadOk := fun _ => true, insertOk := fun _ => false }

/-- Fixture network: the upload of the second fixture photo's object fails,
everything else succeeds. -/
def netFailSecond : Network :=
  { fetchOk := fun _ => true
    uploadOk := fun s => if s = "c2.png" then false else true
    insertOk := fun _ => true }

theorem getExpiryInfoJs_some (c now : Int) :
    getExpiryInfoJs (some c) now =
      { isExpired := (getExpiryInfo c now).isExpired
        remainingMs := some (getExpiryInfo c now).remainingMs
        remainingFormatted := (getExpiryInfo c now).remainingFormatted
        expiresAt := some (getExpiryInfo c now).expiresAt } := rfl

theorem attemptOk_eq_false_of_fail {net : Network} {p : OfflinePhoto}
    (h : net.uploadOk (filePath p.id) = false ∨ net.insertOk p.id = false) :
    attemptOk net p = false := by
  rcases h with h | h <;> simp [attemptOk, h]

theorem syncedView_incrementRetry (i : String) (st : Store) :
    syncedView (incrementRetry i st) = syncedView st := by
  induction st with
  | nil => rfl
  | cons p t ih =>
    simp only [syncedView, incrementRetry, List.map_cons] at ih ⊢
    rw [ih]
    by_cases hp : p.id = i <;> simp [hp]

theorem eq_of_idsDistinct {st : Store} (hd : IdsDistinct st) {x y : OfflinePhoto}
    (hx : x ∈ st) (hy : y ∈ st) (hxy : x.id = y.id) : x = y := by
  induction st with
  | nil => cases hx
  | cons a t ih =>
    have hd' := List.pairwise_cons.mp hd
    rcases List.mem_cons.mp hx with rfl | hx' <;> rcases List.mem_cons.mp hy with rfl | hy'
    · rfl
    · exact absurd hxy (hd'.1 _ hy')
    · exact absurd hxy.symm (hd'.1 _ hx')
    · exact ih hd'.2 hx' hy'

theorem frozen_update_map (p : OfflinePhoto) (st : Store) (g : OfflinePhoto → OfflinePhoto)
    (hg : ∀ q, (g q).id = q.id) (i : String) (hi : i ≠ p.id) (h : Frozen p st) :
    Frozen p (st.map (fun q => if q.id = i then g q else q)) := by
  constructor
  · have hmem := List.mem_map_of_mem (fun q => if q.id = i then g q else q) h.1
    simp only at hmem
    rwa [if_neg (fun hc : p.id = i => hi hc.symm)] at hmem
  · intro q' hq' hid
    rcases List.mem_map.mp hq' with ⟨q, hq, hqeq⟩
    by_cases hqi : q.id = i
    · rw [← hqeq, if_pos hqi] at hid ⊢
      rw [hg q, hqi] at hid
      exact absurd hid hi
    · rw [← hqeq, if_neg hqi] at hid ⊢
      exact h.2 q hq hid

theorem frozen_incrementRetry (p : OfflinePhoto) (st : Store) (i : String) (hi : i ≠ p.id)
    (h : Frozen p st) : Frozen p (incrementRetry i st) :=
  frozen_update_map p st (fun q => { q with retries := q.retries + 1 }) (fun _ => rfl) i hi h

theorem frozen_markSynced (p : OfflinePhoto) (st : Store) (i sid : String) (hi : i ≠ p.id)
    (h : Frozen p st) : Frozen p (markSynced i sid st) :=
  frozen_update_map p st (fun q => { q with synced := true, supabaseId := some sid })
    (fun _ => rfl) i hi h

theorem frozen_syncStep (net : Network) (p photo : OfflinePhoto) (st : Store)
    (hph : photo.id ≠ p.id ∨ photo.retries > 5) (h : Frozen p st) :
    Frozen p (syncStep net st photo) := by
  rw [syncStep]
  by_cases hr : photo.retries > 5
  · rwa [if_pos hr]
  · have hid : photo.id ≠ p.id := hph.resolve_right hr
    rw [if_neg hr]
    by_cases hok : attemptOk net photo
    · rw [hok, if_pos rfl]
      exact frozen_markSynced p _ photo.id photo.id hid (frozen_incrementRetry p st photo.id hid h)
    · rw [Bool.eq_false_iff.mpr hok, if_neg (by simp)]
      exact frozen_incrementRetry p st photo.id hid h

theorem frozen_foldl (net : Network) (p : OfflinePhoto) (pending : List OfflinePhoto)
    (hpend : ∀ x ∈ pending, x.id ≠ p.id ∨ x.retries > 5) :
    ∀ st : Store, Frozen p st → Frozen p (pending.foldl (syncStep net) st) := by
  induction pending with
  | nil => intro st h; exact h
  | cons x t ih =>
    intro st h
    exact ih (fun y hy => hpend y (List.mem_cons_of_mem x hy))
      (syncStep net st x) (frozen_syncStep net p x st (hpend x (List.mem_cons_self x t)) h)

theorem forall2_le_refl (l : List Nat) : List.Forall₂ (· ≤ ·) l l := by
  induction l with
  | nil => exact List.Forall₂.nil
  | cons a t ih => exact List.Forall₂.cons le_rfl ih

theorem forall2_le_trans {a b c : List Nat} (h1 : List.Forall₂ (· ≤ ·) a b)
    (h2 : List.Forall₂ (· ≤ ·) b c) : List.Forall₂ (· ≤ ·) a c := by
  induction h1 generalizing c with
  | nil => cases h2; exact List.Forall₂.nil
  | cons hxy _ ih =>
    cases h2 with
    | cons hyz htail => exact List.Forall₂.cons (le_trans hxy hyz) (ih htail)

theorem retriesView_incrementRetry_mono (i : String) (st : Store) :
    List.Forall₂ (· ≤ ·) (retriesView st) (retriesView (incrementRetry i st)) := by
  induction st with
  | nil => exact List.Forall₂.nil
  | cons p t ih =>
    simp only [retriesView, incrementRetry, List.map_cons] at ih ⊢
    refine List.Forall₂.cons ?_ ih
    by_cases hp : p.id = i <;> simp [hp]

theorem retriesView_markSynced (i sid : String) (st : Store) :
    retriesView (markSynced i sid st) = retriesView st := by
  induction st with
  | nil => rfl
  | cons p t ih =>
    simp only [retriesView, markSynced, List.map_cons] at ih ⊢
    rw [ih]
    by_cases hp : p.id = i <;> simp [hp]

theorem retriesView_syncStep_mono (net : Network) (st : Store) (photo : OfflinePhoto) :
    List.Forall₂ (· ≤ ·) (retriesView st) (retriesView (syncStep net st photo)) := by
  rw [syncStep]
  by_cases hr : photo.retries > 5
  · rw [if_pos hr]; exact forall2_le_refl _
  · rw [if_neg hr]
    by_cases hok : attemptOk net photo
    · rw [hok, if_pos rfl, retriesView_markSynced]
      exact retriesView_incrementRetry_mono photo.id st
    · rw [Bool.eq_false_iff.mpr hok, if_neg (by simp)]
      exact retriesView_incrementRetry_mono photo.id st

theorem retriesView_foldl_mono (net : Network) (pending : List OfflinePhoto) :
    ∀ st : Store, List.Forall₂ (· ≤ ·) (retriesView st)
      (retriesView (pending.foldl (syncStep net) st)) := by
  induction pending with
  | nil => intro st; exact forall2_le_refl _
  | cons x t ih =>
    intro st
    exact forall2_le_trans (retriesView_syncStep_mono net st x) (ih (syncStep net st x))

theorem singleRun_failing (net : Network) (q : OfflinePhoto)
    (hup : ∀ s, net.uploadOk s = false) (hs : q.synced = false) :
    syncPendingPhotos net [q] =
      if q.retries > 5 then [q] else [{ q with retries := q.retries + 1 }] := by
  have hpend : getPendingPhotos [q] = [q] := by
    simp [getPendingPhotos, hs]
  rw [syncPendingPhotos, hpend]
  show syncStep net [q] q = _
  have hok : attemptOk net q = false := by simp [attemptOk, hup]
  by_cases hr : q.retries > 5
  · rw [if_pos hr, syncStep, if_pos hr]
  · rw [if_neg hr, syncStep, if_neg hr, hok, if_neg (by simp), incrementRetry]
    simp

theorem goodState_incrementRetry (i : String) {st : Store} (h : goodState st) :
    goodState (incrementRetry i st) := by
  intro q hq hs
  rcases List.mem_map.mp hq with ⟨p, hp, rfl⟩
  by_cases hpi : p.id = i
  · rw [if_pos hpi] at hs ⊢
    exact h p hp hs
  · rw [if_neg hpi] at hs ⊢
    exact h p hp hs

theorem goodState_markSynced_self (i : String) {st : Store} (h : goodState st) :
    goodState (markSynced i i st) := by
  intro q hq hs
  rcases List.mem_map.mp hq with ⟨p, hp, rfl⟩
  by_cases hpi : p.id = i
  · rw [if_pos hpi]
    show some i = some _
    rw [hpi]
  · rw [if_neg hpi] at hs ⊢
    exact h p hp hs

theorem goodState_savePhoto {photo : OfflinePhoto} {st : Store}
    (hnew : photo.synced = true → photo.supabaseId = some photo.id) (h : goodState st) :
    goodState (savePhoto photo st) := by
  rw [savePhoto]
  by_cases hany : st.any (fun p => p.id == photo.id)
  · rw [if_pos hany]
    intro q hq hs
    rcases List.mem_map.mp hq with ⟨p, hp, rfl⟩
    by_cases hpi : p.id = photo.id
    · rw [if_pos hpi] at hs ⊢
      exact hnew hs
    · rw [if_neg hpi] at hs ⊢
      exact h p hp hs
  · rw [if_neg hany]
    intro q hq hs
    rcases List.mem_append.mp hq with hq' | hq'
    · exact h q hq' hs
    · rcases List.mem_singleton.mp hq' with rfl
      exact hnew hs

theorem goodState_syncStep (net : Network) (photo : OfflinePhoto) {st : Store}
    (h : goodState st) : goodState (syncStep net st photo) := by
  rw [syncStep]
  by_cases hr : photo.retries > 5
  · rwa [if_pos hr]
  · rw [if_neg hr]
    by_cases hok : attemptOk net photo
    · rw [hok, if_pos rfl]
      exact goodState_markSynced_self photo.id (goodState_incrementRetry photo.id h)
    · rw [Bool.eq_false_iff.mpr hok, if_neg (by simp)]
      exact goodState_incrementRetry photo.id h

theorem goodState_foldl (net : Network) (pending : List OfflinePhoto) :
    ∀ st : Store, goodState st → goodState (pending.foldl (syncStep net) st) := by
  induction pending with
  | nil => intro st h; exact h
  | cons x t ih => intro st h; exact ih (syncStep net st x) (goodState_syncStep net x h)

/-- C1 (counterexample): the claim says that when the immediate upload fails,
`enqueueCapture` (`shareCreate`) returns the new record's id. It does not:
at the concrete input (network with failing uploads, fresh id `p1`, empty
store) `shareCreate` throws the offline error instead of returning the id. -/
theorem shareCreate_offline_throws :
    (shareCreate netOffline ("p1") ("data:image/png;base64,AAAA") none none none 0 []).1 =
      Except.error offlineErrorMsg := rfl

/-- C1 (amended): for every call to `shareCreate`, the photo record is
durably saved to the local store with `synced = false` and `retries = 0`
before any network upload is attempted; if the immediate upload fails,
`shareCreate` throws an offline error (it does not return the id), the
record is retrievable via `getPendingPhotos` with `retries = 0`, and one
subsequent sync run with the network available transitions it to
`synced = true`. -/
theorem shareCreate_durable_then_sync (net net2 : Network) (id dataUrl : String)
    (w h : Option Nat) (layout : Option String) (ts : Nat)
    (hfail : net.uploadOk (filePath id) = false)
    (hf2 : net2.fetchOk dataUrl = true) (hu2 : net2.uploadOk (filePath id) = true)
    (hi2 : net2.insertOk id = true) :
    (shareCreate net id dataUrl w h layout ts []).1 = Except.error offlineErrorMsg ∧
    (shareCreate net id dataUrl w h layout ts []).2 = [newOfflinePhoto id dataUrl w h layout ts] ∧
    getPendingPhotos (shareCreate net id dataUrl w h layout ts []).2 =
      [newOfflinePhoto id dataUrl w h layout ts] ∧
    (newOfflinePhoto id dataUrl w h layout ts).id = id ∧
    (newOfflinePhoto id dataUrl w h layout ts).synced = false ∧
    (newOfflinePhoto id dataUrl w h layout ts).retries = 0 ∧
    syncPendingPhotos net2 (shareCreate net id dataUrl w h layout ts []).2 =
      [{ newOfflinePhoto id dataUrl w h layout ts with
          synced := true, supabaseId := some id, retries := 1 }] := by
  have hatt : attemptOk net (newOfflinePhoto id dataUrl w h layout ts) = false := by
    simp [attemptOk, newOfflinePhoto, hfail]
  have hshare : shareCreate net id dataUrl w h layout ts [] =
      (Except.error offlineErrorMsg, [newOfflinePhoto id dataUrl w h layout ts]) := by
    rw [shareCreate]
    simp [savePhoto, hatt]
  have hpend : getPendingPhotos [newOfflinePhoto id dataUrl w h layout ts] =
      [newOfflinePhoto id dataUrl w h layout ts] := by
    simp [getPendingPhotos, newOfflinePhoto]
  have hatt2 : attemptOk net2 (newOfflinePhoto id dataUrl w h layout ts) = true := by
    simp [attemptOk, newOfflinePhoto, hf2, hu2, hi2]
  refine ⟨by rw [hshare], by rw [hshare], by rw [hshare]; exact hpend, rfl, rfl, rfl, ?_⟩
  rw [hshare]
  show syncPendingPhotos net2 [newOfflinePhoto id dataUrl w h layout ts] = _
  rw [syncPendingPhotos, hpend]
  show syncStep net2 [newOfflinePhoto id dataUrl w h layout ts]
      (newOfflinePhoto id dataUrl w h layout ts) = _
  rw [syncStep, if_neg (by simp [newOfflinePhoto]), hatt2, if_pos rfl]
  simp [incrementRetry, markSynced, newOfflinePhoto]

/-- C1 (witness): the amended statement instantiated at a concrete capture
against a network with failing uploads, then synced over a working one. -/
theorem shareCreate_durable_then_sync_witness :
    (shareCreate netOffline ("w1") ("data:w") none none none 0 []).1 =
      Except.error offlineErrorMsg ∧
    (shareCreate netOffline ("w1") ("data:w") none none none 0 []).2 =
      [newOfflinePhoto ("w1") ("data:w") none none none 0] ∧
    getPendingPhotos (shareCreate netOffline ("w1") ("data:w") none none none 0 []).2 =
      [newOfflinePhoto ("w1") ("data:w") none none none 0] ∧
    (newOfflinePhoto ("w1") ("data:w") none none none 0).id = "w1" ∧
    (newOfflinePhoto ("w1") ("data:w") none none none 0).synced = false ∧
    (newOfflinePhoto ("w1") ("data:w") none none none 0).retries = 0 ∧
    syncPendingPhotos netOnline (shareCreate netOffline ("w1") ("data:w") none none none 0 []).2 =
      [{ newOfflinePhoto ("w1") ("data:w") none none none 0 with
          synced := true, supabaseId := some "w1", retries := 1 }] :=
  shareCreate_durable_then_sync netOffline netOnline ("w1") ("data:w") none none none 0
    rfl rfl rfl rfl

/-- C2: in a sync-run step, `markSynced` runs only after the object upload
and the metadata write both succeeded (second conjunct: under the retry
ceiling, a fully successful attempt is exactly `markSynced` after
`incrementRetry`); if either fails, every record's `synced` flag is left
unchanged, so a pending record stays pending for the next run. -/
theorem syncStep_marks_only_after_both (net : Network) (st : Store) (photo : OfflinePhoto) :
    (net.uploadOk (filePath photo.id) = false ∨ net.insertOk photo.id = false →
      syncedView (syncStep net st photo) = syncedView st) ∧
    (photo.retries ≤ 5 → attemptOk net photo = true →
      syncStep net st photo = markSynced photo.id photo.id (incrementRetry photo.id st)) := by
  constructor
  · intro hfail
    rw [syncStep]
    by_cases hr : photo.retries > 5
    · rw [if_pos hr]
    · rw [if_neg hr, attemptOk_eq_false_of_fail hfail, if_neg (by simp)]
      exact syncedView_incrementRetry photo.id st
  · intro hr hok
    rw [syncStep, if_neg (by omega), hok, if_pos rfl]

/-- C2 (witness): the object uploaded but the metadata write failed, so the
synced flags are unchanged; and with everything succeeding, the step is
exactly `markSynced` after `incrementRetry`. -/
theorem syncStep_marks_only_after_both_witness :
    syncedView (syncStep netNoInsert [photoA] photoA) = syncedView [photoA] ∧
    syncStep netAllOk [photoA] photoA =
      markSynced photoA.id photoA.id (incrementRetry photoA.id [photoA]) :=
  ⟨(syncStep_marks_only_after_both netNoInsert [photoA] photoA).1 (Or.inr rfl),
   (syncStep_marks_only_after_both netAllOk [photoA] photoA).2 (by decide) rfl⟩

/-- C3: a pending record with `retries > 5` is excluded from upload attempts
(its own step leaves the store untouched: not attempted, not incremented,
not deleted) and, with the keyPath uniqueness of ids, it is still present
and still pending after a whole sync run. -/
theorem sync_retry_ceiling (net : Network) (st : Store) (photo p : OfflinePhoto) :
    (photo.retries > 5 → syncStep net st photo = st) ∧
    (IdsDistinct st → p ∈ st → p.synced = false → p.retries > 5 →
      p ∈ getPendingPhotos (syncPendingPhotos net st) ∧ p.synced = false ∧ p.retries > 5) := by
  constructor
  · intro hr
    rw [syncStep, if_pos hr]
  · intro hd hp hs hr
    have hfrozen : Frozen p (syncPendingPhotos net st) := by
      rw [syncPendingPhotos]
      refine frozen_foldl net p (getPendingPhotos st) ?_ st
        ⟨hp, fun q hq => eq_of_idsDistinct hd hq hp⟩
      intro x hx
      by_cases hxi : x.id = p.id
      · have hxst : x ∈ st := List.mem_of_mem_filter hx
        have : x = p := eq_of_idsDistinct hd hxst hp hxi
        exact Or.inr (this ▸ hr)
      · exact Or.inl hxi
    refine ⟨?_, hs, hr⟩
    rw [getPendingPhotos, List.mem_filter]
    exact ⟨hfrozen.1, by rw [hs]; rfl⟩

/-- C3 (witness): a record with 7 retries is untouched by its own step, and
survives, still pending, a full run over a two-record store even though the
network is fully available. -/
theorem sync_retry_ceiling_witness :
    syncStep netAllOk [photoStuck] photoStuck = [photoStuck] ∧
    photoStuck ∈ getPendingPhotos (syncPendingPhotos netAllOk [photoA, photoStuck]) :=
  ⟨(sync_retry_ceiling netAllOk [photoStuck] photoStuck photoStuck).1 (by decide),
   ((sync_retry_ceiling netAllOk [photoA, photoStuck] photoA photoStuck).2
      (show List.Pairwise (fun a b => a.id ≠ b.id) [photoA, photoStuck] by decide)
      (by simp) rfl (by decide)).1⟩

/-- C4: `retries` never decreases: `incrementRetry` is pointwise monotone,
`markSynced` leaves every retry counter unchanged, a whole sync run is
pointwise monotone; and starting from a fresh record, N sync runs with the
upload failing every time leave `retries = min N 6` (the behaviour-defined
cap: the attempt made when `retries = 5` raises it to 6, after which the
record is skipped), incrementing exactly once per attempting run. -/
theorem retry_monotone_min (net : Network) (p0 : OfflinePhoto) (N : Nat) :
    (∀ (i : String) (st : Store),
      List.Forall₂ (· ≤ ·) (retriesView st) (retriesView (incrementRetry i st))) ∧
    (∀ (i sid : String) (st : Store), retriesView (markSynced i sid st) = retriesView st) ∧
    (∀ st : Store,
      List.Forall₂ (· ≤ ·) (retriesView st) (retriesView (syncPendingPhotos net st))) ∧
    ((∀ s, net.uploadOk s = false) → p0.synced = false → p0.retries = 0 →
      iterateSync net [p0] N = [{ p0 with retries := min N 6 }]) := by
  refine ⟨fun i st => retriesView_incrementRetry_mono i st,
    fun i sid st => retriesView_markSynced i sid st,
    fun st => by
      rw [syncPendingPhotos]
      exact retriesView_foldl_mono net (getPendingPhotos st) st,
    ?_⟩
  intro hup hs hr
  induction N with
  | zero =>
    show [p0] = [{ p0 with retries := min 0 6 }]
    rw [Nat.min_eq_left (by omega), ← hr]
  | succ n ih =>
    show syncPendingPhotos net (iterateSync net [p0] n) = _
    rw [ih, singleRun_failing net { p0 with retries := min n 6 } hup hs]
    by_cases hn : min n 6 > 5
    · rw [if_pos hn]
      have : min n 6 = min (n + 1) 6 := by omega
      rw [this]
    · rw [if_neg hn]
      have : min n 6 + 1 = min (n + 1) 6 := by omega
      rw [this]

/-- C4 (witness): nine consecutive failing runs over a fresh record leave
`retries = min 9 6 = 6`. -/
theorem retry_monotone_min_witness :
    iterateSync netOffline [photoA] 9 = [{ photoA with retries := min 9 6 }] :=
  (retry_monotone_min netOffline photoA 9).2.2.2 (fun _ => rfl) rfl rfl

/-- C5: records are processed sequentially and one record's failure does not
abort the run: with three pending records where the second one's object
upload fails and the other two attempts succeed, one run leaves records 1
and 3 synced with their remote ids and record 2 unsynced with its retry
counter incremented by exactly 1 (records 1 and 3 are also incremented,
since the counter rises before each attempt). -/
theorem sync_run_isolated_failure (net : Network) (p1 p2 p3 : OfflinePhoto)
    (h12 : p1.id ≠ p2.id) (h13 : p1.id ≠ p3.id) (h23 : p2.id ≠ p3.id)
    (hs1 : p1.synced = false) (hs2 : p2.synced = false) (hs3 : p3.synced = false)
    (hr1 : p1.retries ≤ 5) (hr2 : p2.retries ≤ 5) (hr3 : p3.retries ≤ 5)
    (hok1 : attemptOk net p1 = true)
    (hup2 : net.uploadOk (filePath p2.id) = false)
    (hok3 : attemptOk net p3 = true) :
    syncPendingPhotos net [p1, p2, p3] =
      [{ p1 with synced := true, supabaseId := some p1.id, retries := p1.retries + 1 },
       { p2 with retries := p2.retries + 1 },
       { p3 with synced := true, supabaseId := some p3.id, retries := p3.retries + 1 }] := by
  have hok2 : attemptOk net p2 = false := attemptOk_eq_false_of_fail (Or.inl hup2)
  have hpend : getPendingPhotos [p1, p2, p3] = [p1, p2, p3] := by
    simp [getPendingPhotos, hs1, hs2, hs3]
  have e1 : syncStep net [p1, p2, p3] p1 =
      [{ p1 with synced := true, supabaseId := some p1.id, retries := p1.retries + 1 }, p2, p3] := by
    rw [syncStep, if_neg (by omega), hok1, if_pos rfl]
    simp [incrementRetry, markSynced, Ne.symm h12, Ne.symm h13]
  have e2 : syncStep net
      [{ p1 with synced := true, supabaseId := some p1.id, retries := p1.retries + 1 }, p2, p3] p2 =
      [{ p1 with synced := true, supabaseId := some p1.id, retries := p1.retries + 1 },
       { p2 with retries := p2.retries + 1 }, p3] := by
    rw [syncStep, if_neg (by omega), hok2, if_neg (by simp)]
    simp [incrementRetry, h12, Ne.symm h23]
  have e3 : syncStep net
      [{ p1 with synced := true, supabaseId := some p1.id, retries := p1.retries + 1 },
       { p2 with retries := p2.retries + 1 }, p3] p3 =
      [{ p1 with synced := true, supabaseId := some p1.id, retries := p1.retries + 1 },
       { p2 with retries := p2.retries + 1 },
       { p3 with synced := true, supabaseId := some p3.id, retries := p3.retries + 1 }] := by
    rw [syncStep, if_neg (by omega), hok3, if_pos rfl]
    simp [incrementRetry, markSynced, h13, h23]
  rw [syncPendingPhotos, hpend]
  show syncStep net (syncStep net (syncStep net [p1, p2, p3] p1) p2) p3 = _
  rw [e1, e2, e3]

/-- C5 (witness): the three-record scenario at concrete records, with the
network failing exactly on the second record's object key. -/
theorem sync_run_isolated_failure_witness :
    syncPendingPhotos netFailSecond [photoC1, photoC2, photoC3] =
      [{ photoC1 with synced := true, supabaseId := some photoC1.id, retries := photoC1.retries + 1 },
       { photoC2 with retries := photoC2.retries + 1 },
       { photoC3 with synced := true, supabaseId := some photoC3.id, retries := photoC3.retries + 1 }] :=
  sync_run_isolated_failure netFailSecond photoC1 photoC2 photoC3
    (by decide) (by decide) (by decide) rfl rfl rfl
    (by decide) (by decide) (by decide) (by decide) (by decide) (by decide)

/-- C6: `getExpiryInfo` computes `expiresAt = createdAt + 24 h`,
`remainingMs = max 0 (expiresAt - now)`, `isExpired = (expiresAt <= now)`;
at `now = createdAt` the content is not expired with the full window
remaining, and at `now = createdAt + 25 h` it is expired with 0 remaining. -/
theorem getExpiryInfo_correct (T now : Int) :
    (getExpiryInfo T now).expiresAt = T + expiryWindowMs ∧
    (getExpiryInfo T now).remainingMs = max 0 (T + expiryWindowMs - now) ∧
    (getExpiryInfo T now).isExpired = decide (T + expiryWindowMs ≤ now) ∧
    expiryWindowMs = 24 * 60 * 60 * 1000 ∧
    (getExpiryInfo T T).isExpired = false ∧
    (getExpiryInfo T T).remainingMs = expiryWindowMs ∧
    (getExpiryInfo T (T + 25 * 60 * 60 * 1000)).isExpired = true ∧
    (getExpiryInfo T (T + 25 * 60 * 60 * 1000)).remainingMs = 0 := by
  refine ⟨rfl, rfl, ?_, by decide, ?_, ?_, ?_, ?_⟩
  · show decide (T + expiryWindowMs - now ≤ 0) = decide (T + expiryWindowMs ≤ now)
    exact decide_eq_decide.mpr (by omega)
  · show decide (T + expiryWindowMs - T ≤ 0) = false
    rw [decide_eq_false_iff_not]
    have : expiryWindowMs = 86400000 := by decide
    omega
  · show max 0 (T + expiryWindowMs - T) = expiryWindowMs
    have : expiryWindowMs = 86400000 := by decide
    rw [this]; omega
  · show decide (T + expiryWindowMs - (T + 25 * 60 * 60 * 1000) ≤ 0) = true
    rw [decide_eq_true_iff]
    have : expiryWindowMs = 86400000 := by decide
    omega
  · show max 0 (T + expiryWindowMs - (T + 25 * 60 * 60 * 1000)) = 0
    have : expiryWindowMs = 86400000 := by decide
    omega

/-- C7: `formatRemainingTime` renders any non-positive remainder as exactly
`"00:00:00"`, renders 3,725,000 ms as `"01:02:05"`, lets hours accumulate
without days rollover (`26:00:00`), and in general renders the whole
seconds of the remainder as zero-padded `HH:MM:SS`. -/
theorem formatRemainingTime_correct :
    (∀ ms : Int, ms ≤ 0 → formatRemainingTime ms = "00:00:00") ∧
    formatRemainingTime 3725000 = "01:02:05" ∧
    formatRemainingTime (26 * 60 * 60 * 1000) = "26:00:00" ∧
    (∀ h m s r : Nat, m < 60 → s < 60 → r < 1000 →
      formatRemainingTime (((h * 3600 + m * 60 + s) * 1000 + r : Nat) : Int) =
        padTwo h ++ ":" ++ padTwo m ++ ":" ++ padTwo s) := by
  refine ⟨?_, by decide, by decide, ?_⟩
  · intro ms hms
    simp [formatRemainingTime, hms]
  · intro h m s r hm hs hr
    rcases Nat.eq_zero_or_pos ((h * 3600 + m * 60 + s) * 1000 + r) with hz | hpos
    · have hh : h = 0 := by omega
      have hm0 : m = 0 := by omega
      have hs0 : s = 0 := by omega
      subst hh hm0 hs0
      rw [hz]
      decide
    · have hneg : ¬ (((h * 3600 + m * 60 + s) * 1000 + r : Nat) : Int) ≤ 0 := by
        omega
      rw [formatRemainingTime, if_neg hneg]
      show padTwo ((((h * 3600 + m * 60 + s) * 1000 + r : Nat) : Int).toNat / 1000 / 3600) ++ ":" ++
          padTwo (((((h * 3600 + m * 60 + s) * 1000 + r : Nat) : Int).toNat / 1000 % 3600) / 60) ++
          ":" ++
          padTwo ((((h * 3600 + m * 60 + s) * 1000 + r : Nat) : Int).toNat / 1000 % 60) = _
      rw [Int.toNat_natCast]
      have h1 : ((h * 3600 + m * 60 + s) * 1000 + r) / 1000 = h * 3600 + m * 60 + s := by omega
      rw [h1]
      have h2 : (h * 3600 + m * 60 + s) / 3600 = h := by omega
      have h3 : (h * 3600 + m * 60 + s) % 3600 / 60 = m := by omega
      have h4 : (h * 3600 + m * 60 + s) % 60 = s := by omega
      rw [h2, h3, h4]

/-- C7 (witness): the general rendering applied at 1 h 2 min 5 s plus a
999 ms fraction, and the non-positive case at -5 ms. -/
theorem formatRemainingTime_correct_witness :
    formatRemainingTime (-5) = "00:00:00" ∧
    formatRemainingTime (((1 * 3600 + 2 * 60 + 5) * 1000 + 999 : Nat) : Int) =
      padTwo 1 ++ ":" ++ padTwo 2 ++ ":" ++ padTwo 5 :=
  ⟨formatRemainingTime_correct.1 (-5) (by decide),
   formatRemainingTime_correct.2.2.2 1 2 5 999 (by decide) (by decide) (by decide)⟩

/-- C8: on an unparseable `createdAt` (`new Date(...)` gives NaN) the code
does not fail fast: `getExpiryInfo` silently returns
`isExpired = false` (a comparison with NaN), `remainingMs = NaN` and the
formatted string `"NaN:NaN:NaN"`, i.e. it treats the content as never
expiring instead of raising a validation error as the claim requires. -/
theorem getExpiryInfo_invalid_silent (now : Int) :
    (getExpiryInfoJs none now).isExpired = false ∧
    (getExpiryInfoJs none now).remainingMs = none ∧
    (getExpiryInfoJs none now).remainingFormatted = "NaN:NaN:NaN" ∧
    (getExpiryInfoJs none now).expiresAt = none :=
  ⟨rfl, rfl, rfl, rfl⟩

/-- C9: `markSynced` and `incrementRetry` on an id that is absent from the
store resolve successfully and change nothing. -/
theorem store_ops_missing_id_noop (id supabaseId : String) (st : Store)
    (h : ∀ p ∈ st, p.id ≠ id) :
    markSynced id supabaseId st = st ∧ incrementRetry id st = st := by
  constructor
  · have hcongr : ∀ p ∈ st,
        (if p.id = id then { p with synced := true, supabaseId := some supabaseId } else p) = p :=
      fun p hp => if_neg (h p hp)
    rw [markSynced, List.map_congr_left hcongr, List.map_id']
  · have hcongr : ∀ p ∈ st,
        (if p.id = id then { p with retries := p.retries + 1 } else p) = p :=
      fun p hp => if_neg (h p hp)
    rw [incrementRetry, List.map_congr_left hcongr, List.map_id']

/-- C9 (witness): both operations on the id `zzz`, absent from a one-record
store, return it unchanged. -/
theorem store_ops_missing_id_noop_witness :
    markSynced ("zzz") ("r1") [photoA] = [photoA] ∧ incrementRetry ("zzz") [photoA] = [photoA] :=
  store_ops_missing_id_noop ("zzz") ("r1") [photoA] (by decide)

/-- C10: every record that becomes synced stores its own local id as
`supabaseId`: the invariant is preserved by `shareCreate` and by a whole
sync run (both call `markSynced` with the local id), and the remote object
key is deterministically the local id plus `.png`. -/
theorem synced_remoteId_eq_local_id :
    (∀ (net : Network) (id dataUrl : String) (w h : Option Nat) (layout : Option String)
      (ts : Nat) (st : Store), goodState st →
      goodState (shareCreate net id dataUrl w h layout ts st).2) ∧
    (∀ (net : Network) (st : Store), goodState st → goodState (syncPendingPhotos net st)) ∧
    (∀ id : String, filePath id = id ++ ".png") := by
  refine ⟨?_, ?_, fun _ => rfl⟩
  case refine_2 =>
    intro net st hst
    rw [syncPendingPhotos]
    exact goodState_foldl net (getPendingPhotos st) st hst
  · intro net id dataUrl w h layout ts st hst
    rw [shareCreate]
    have hsave : goodState (savePhoto (newOfflinePhoto id dataUrl w h layout ts) st) :=
      goodState_savePhoto (fun hfalse => by simp [newOfflinePhoto] at hfalse) hst
    by_cases hok : attemptOk net (newOfflinePhoto id dataUrl w h layout ts)
    · rw [hok, if_pos rfl]
      exact goodState_markSynced_self id hsave
    · rw [Bool.eq_false_iff.mpr hok, if_neg (by simp)]
      exact hsave

/-- C10 (witness): the invariant holds after a concrete capture on an empty
store, after a sync run over a one-record store, and the key of id `x` is
`x.png`. -/
theorem synced_remoteId_eq_local_id_witness :
    goodState (shareCreate netOnline ("x") ("data:x") none none none 0 []).2 ∧
    goodState (syncPendingPhotos netOnline [photoA]) ∧
    filePath ("x") = "x.png" :=
  ⟨synced_remoteId_eq_local_id.1 netOnline ("x") ("data:x") none none none 0 []
     (fun p hp => absurd hp (List.not_mem_nil p)),
   synced_remoteId_eq_local_id.2.1 netOnline [photoA]
     (by intro p hp hs; rcases List.mem_singleton.mp hp with rfl; cases hs),
   synced_remoteId_eq_local_id.2.2 ("x")⟩

end Photobooth
